import Mathlib

/-!
Verification of the Web Vitals extension's metric measurement-and-reconciliation
engine: the rating classification, the visualization position mapping, the
field-data distribution model, the CrUX field-data client with its
page-to-origin fallback policy, and the popup coordinator that reconciles
local samples with field data (`src/browser_action/popup.js`).

Numeric metric values are embedded as rationals; the DOM-rendering layer is
abstracted to the state fields that the popup code writes (status text,
displayed page URL, metric map).
-/

namespace WebVitals

/-- The three-tier classification applied to a metric value. -/
inductive Rating where
  | good
  | needsImprovement
  | poor
deriving DecidableEq, Repr

/-- Per-kind classification boundaries: a "good" upper bound and a
"needs-improvement" upper bound (values at or above the second bound are poor). -/
structure Thresholds where
  goodBound : ℚ
  poorBound : ℚ
deriving DecidableEq, Repr

/-- Modelled from the spec: `metric.js` (the Metric classes with the rating
logic) is not in the source tree.  Rating is a pure function of a numeric value
and its kind's thresholds: value < goodBound gives good; goodBound ≤ value <
poorBound gives needs-improvement; value ≥ poorBound gives poor. -/
def rating (t : Thresholds) (v : ℚ) : Rating :=
  if v < t.goodBound then .good
  else if v < t.poorBound then .needsImprovement
  else .poor

/-- LCP thresholds from the spec scenario: good < 2500 ms, poor ≥ 4000 ms. -/
def lcpThresholds : Thresholds := ⟨2500, 4000⟩

/-- Modelled from the spec: `metric.js` is not in the source tree.
`relativePosition` maps a value to a fractional position in [0,1] (clamped) on
a fixed visualization scale spanning from 0 to a kind-specific maximum. -/
def relativePosition (scaleMax : ℚ) (v : ℚ) : ℚ :=
  max 0 (min 1 (v / scaleMax))

/-- Three population fractions, one per rating bucket, for one metric on one
page or origin. -/
structure Distribution where
  good : ℚ
  needsImprovement : ℚ
  poor : ℚ
deriving DecidableEq, Repr

/-- Floating tolerance for the distribution sum check. -/
def epsilon : ℚ := 1 / 1000

/-- Modelled from the spec: a Distribution is acceptable for attachment exactly
when its three fractions are individually nonnegative and sum to at most
1.0 + ε. -/
def validDistribution (d : Distribution) : Bool :=
  decide (0 ≤ d.good) && decide (0 ≤ d.needsImprovement) && decide (0 ≤ d.poor)
    && decide (d.good + d.needsImprovement + d.poor ≤ 1 + epsilon)

/-- The popup's metric identifiers: the keys of `this.metrics` created by
`initMetrics` in `popup.js` (lcp, cls, inp, fcp, ttfb). -/
inductive MetricId where
  | lcp
  | cls
  | inp
  | fcp
  | ttfb
deriving DecidableEq, Repr

/-- A Metric value object: kind, local sample value, local rating (computed by
the excluded instrumentation collaborator and passed in, see `initMetrics`),
and the optionally attached field Distribution. -/
structure Metric where
  kind : MetricId
  localValue : ℚ
  localRating : Rating
  distribution : Option Distribution
deriving DecidableEq, Repr

/-- Error raised when a Distribution fails validation at attachment. -/
inductive AttachError where
  | invalidDistribution
deriving DecidableEq, Repr

/-- Modelled from the spec: `metric.js` is not in the source tree.  Attaching a
Distribution validates it; an out-of-range Distribution is rejected with
`InvalidDistribution` and nothing is attached. -/
def attachDistribution (m : Metric) (d : Distribution) : Except AttachError Metric :=
  if validDistribution d then .ok { m with distribution := some d }
  else .error .invalidDistribution

/-- The coordinator-side behavior around attachment: on rejection the Metric is
kept unchanged, functioning on local data only. -/
def reconcile (m : Metric) (d : Distribution) : Metric :=
  match attachDistribution m d with
  | .ok m' => m'
  | .error _ => m

/-- Left-pads a digit string with zeros up to the requested width. -/
def padZeros (n : ℕ) (s : String) : String :=
  if s.length < n then String.mk (List.replicate (n - s.length) '0') ++ s else s

/-- The fraction scaled to an integer percentage at the given precision. -/
def percentScaled (q : ℚ) (precision : ℕ) : ℤ :=
  round (q * 100 * ((10 : ℚ) ^ precision))

/-- Modelled from the spec: `metric.js` is not in the source tree.  Formats a
fraction as a percentage string at the given decimal precision. -/
def formatPercent (q : ℚ) (precision : ℕ) : String :=
  if precision = 0 then toString (percentScaled q precision) ++ "%"
  else
    toString (percentScaled q precision / (10 : ℤ) ^ precision) ++ "."
      ++ padZeros precision (toString ((percentScaled q precision % (10 : ℤ) ^ precision).natAbs))
      ++ "%"

/-- Bucket indexing of a Distribution: 0 = good, 1 = needs-improvement, 2 = poor. -/
def bucketFraction (d : Distribution) : Fin 3 → ℚ
  | 0 => d.good
  | 1 => d.needsImprovement
  | 2 => d.poor

/-- Modelled from the spec: `metric.js` is not in the source tree.
`getDensity` returns the requested bucket's fraction formatted as a percentage
string at the given decimal precision, or a sentinel "unavailable" value when
no Distribution is attached. -/
def getDensity (m : Metric) (i : Fin 3) (precision : ℕ) : String :=
  match m.distribution with
  | none => "Unavailable"
  | some d => formatPercent (bucketFraction d i) precision

/-- Modelled from the spec: `metric.js` is not in the source tree.  Maps a
Rating to the index of the bucket holding experiences of the same tier. -/
def getAssessmentIndex : Rating → Fin 3
  | .good => 0
  | .needsImprovement => 1
  | .poor => 2

/-- A URL split into the components the fallback policy needs. -/
structure Url where
  scheme : String
  host : String
  path : String
deriving DecidableEq, Repr

/-- The origin of a URL: scheme + host only. -/
def originOf (u : Url) : Url := { scheme := u.scheme, host := u.host, path := "" }

/-- The two levels at which the field-data API is queried. -/
inductive Level where
  | page
  | origin
deriving DecidableEq, Repr

/-- A successful field-data API record: per-kind distributions keyed by the
API's metric identifier strings, plus the normalized URL it matched. -/
structure ApiRecord where
  metrics : List (String × Distribution)
  normalizedUrl : Option Url
deriving DecidableEq, Repr

/-- The documented outcomes of one field-data API request: a record, a
documented "record not found" response, or a transport/HTTP failure
(timeout, 4xx/5xx other than not-found, malformed payload). -/
inductive ApiOutcome where
  | found (r : ApiRecord)
  | notFound
  | transportError
deriving DecidableEq, Repr

/-- Scope of a field-data result: page-level or origin-level fallback. -/
inductive Scope where
  | page
  | originFallback
deriving DecidableEq, Repr

/-- The requested form factor. -/
inductive FormFactor where
  | phone
  | desktop
deriving DecidableEq, Repr

/-- A reconciled field-data view: scope, the effective URL/origin reported by
the API, and the per-kind distributions. -/
structure FieldDataResult where
  scope : Scope
  effectiveUrl : Url
  metrics : List (String × Distribution)
deriving DecidableEq, Repr

/-- The field-data client's domain errors: expected absence of data versus
transport failure. -/
inductive FieldError where
  | fieldDataUnavailable
  | fieldDataTransportError
deriving DecidableEq, Repr

/-- Modelled from the spec: `crux.js` (the CrUX field-data client) is not in
the source tree.  `cruxLoad` requests page-level data; on a documented
not-found response it issues a second origin-level request; an origin-level
record is marked `origin-fallback` carrying the origin as the effective URL;
if neither record exists it surfaces `FieldDataUnavailable`; any transport
failure surfaces `FieldDataTransportError` and is not retried.  The second
component records the sequence of API requests issued. -/
def cruxLoad (api : Level → ApiOutcome) (pageUrl : Url) :
    Except FieldError FieldDataResult × List Level :=
  match api .page with
  | .found r =>
      (.ok { scope := .page, effectiveUrl := r.normalizedUrl.getD pageUrl,
             metrics := r.metrics }, [.page])
  | .transportError => (.error .fieldDataTransportError, [.page])
  | .notFound =>
      match api .origin with
      | .found r =>
          (.ok { scope := .originFallback, effectiveUrl := originOf pageUrl,
                 metrics := r.metrics }, [.page, .origin])
      | .notFound => (.error .fieldDataUnavailable, [.page, .origin])
      | .transportError => (.error .fieldDataTransportError, [.page, .origin])

/-- One local sample as handed to the Popup constructor: a value and the
rating computed by the instrumentation layer. -/
structure LocalSample where
  value : ℚ
  rating : Rating
deriving DecidableEq, Repr

/-- The per-kind local samples destructured from the constructor input
(`this._metrics` in `popup.js`). -/
structure LocalSamples where
  lcp : LocalSample
  cls : LocalSample
  inp : LocalSample
  fcp : LocalSample
  ttfb : LocalSample
deriving DecidableEq, Repr

/-- The popup's metric map `this.metrics`, keyed lcp/cls/inp/fcp/ttfb exactly
as populated by `initMetrics` in `popup.js`. -/
structure MetricsMap where
  lcp : Metric
  cls : Metric
  inp : Metric
  fcp : Metric
  ttfb : Metric
deriving DecidableEq, Repr

/-- Builds one Metric object from a local sample, as the Metric constructors
are invoked in `initMetrics` (`new LCP({local, rating, background})`). -/
def mkMetric (k : MetricId) (s : LocalSample) : Metric :=
  { kind := k, localValue := s.value, localRating := s.rating, distribution := none }

/-- `initMetrics` from `popup.js`: creates the five Metric objects, including
`this.metrics.inp = new INP({...})`, in source order. -/
def initMetricsMap (s : LocalSamples) : MetricsMap :=
  { lcp := mkMetric .lcp s.lcp
    cls := mkMetric .cls s.cls
    inp := mkMetric .inp s.inp
    fcp := mkMetric .fcp s.fcp
    ttfb := mkMetric .ttfb s.ttfb }

/-- `renderMetrics` from `popup.js`: `Object.values(this.metrics)` in insertion
order, each passed to `renderMetric`. -/
def renderedMetrics (mm : MetricsMap) : List Metric :=
  [mm.lcp, mm.cls, mm.inp, mm.fcp, mm.ttfb]

/-- The lookup `this.metrics[id]` in `renderFieldData`: the API's metric
identifier string resolves to a Metric only for the five keys created by
`initMetrics`. -/
def lookupMetric (mm : MetricsMap) (id : String) : Option Metric :=
  if id = "lcp" then some mm.lcp
  else if id = "cls" then some mm.cls
  else if id = "inp" then some mm.inp
  else if id = "fcp" then some mm.fcp
  else if id = "ttfb" then some mm.ttfb
  else none

/-- The metric identifier strings for which `lookupMetric` can succeed. -/
def supportedIds : List String := ["lcp", "cls", "inp", "fcp", "ttfb"]

/-- Writes one entry of the metric map; ids outside the five keys are
untouched, mirroring that `this.metrics` only ever holds those keys. -/
def setMetric (mm : MetricsMap) (id : String) (m : Metric) : MetricsMap :=
  if id = "lcp" then { mm with lcp := m }
  else if id = "cls" then { mm with cls := m }
  else if id = "inp" then { mm with inp := m }
  else if id = "fcp" then { mm with fcp := m }
  else if id = "ttfb" then { mm with ttfb := m }
  else mm

/-- One iteration of the per-metric loop of `renderFieldData` in `popup.js`:
skip the entry when `this.metrics[id]` is undefined (the API may return
additional metrics that the popup does not support), otherwise attach the
parsed distribution to the Metric. -/
def applyFieldEntry (acc : MetricsMap) (p : String × Distribution) : MetricsMap :=
  match lookupMetric acc p.1 with
  | none => acc
  | some m => setMetric acc p.1 (reconcile m p.2)

/-- The per-metric loop of `renderFieldData` in `popup.js` over the whole
payload. -/
def processFieldMetrics (mm : MetricsMap) (payload : List (String × Distribution)) :
    MetricsMap :=
  payload.foldl applyFieldEntry mm

/-- The popup state written by the code under verification: the status line,
the displayed page URL, the metric map, and the page URL the popup was opened
on. -/
structure PopupState where
  status : String
  pageDisplay : Url
  metrics : MetricsMap
  url : Url
deriving DecidableEq, Repr

/-- The coordinator's terminal states after the field-data fetch resolves. -/
inductive CoordState where
  | reconciled
  | fieldUnavailable
deriving DecidableEq, Repr

/-- The form-factor selection in `initFieldData`:
`this.options.preferPhoneField ? PHONE : DESKTOP`. -/
def chooseFormFactor (preferPhoneField : Bool) : FormFactor :=
  if preferPhoneField then .phone else .desktop

/-- The status text set by the `catch` branch of `initFieldData`. -/
def fieldUnavailableStatus : String := "Local metrics only (field data unavailable)"

/-- Status text of the origin-fallback branch of `renderFieldData` (the HTML
fragment is abstracted to its message). -/
def originFallbackStatus : String :=
  "Page-level field data is not available; comparing local metrics to origin-level field data instead"

/-- Status text of the page-level branch of `renderFieldData`. -/
def pageFieldStatus : String := "Local metrics compared to field data"

/-- `renderFieldData` from `popup.js`: on origin fallback the status is
replaced and the displayed page becomes the origin; otherwise the normalized
URL (when reported) replaces the displayed page; then every payload entry is
attached to its Metric via the per-metric loop. -/
def renderFieldDataState (p : PopupState) (fd : FieldDataResult) : PopupState :=
  let p1 :=
    if fd.scope = .originFallback then
      { p with status := originFallbackStatus, pageDisplay := fd.effectiveUrl }
    else
      { p with status := pageFieldStatus, pageDisplay := fd.effectiveUrl }
  { p1 with metrics := processFieldMetrics p1.metrics fd.metrics }

/-- `initFieldData` from `popup.js`: issue exactly one `CrUX.load` for the
popup's URL; on success hand the result to `renderFieldData`; on any rejection
only set the degraded status text — no retry.  The final component counts the
`CrUX.load` invocations issued by this popup lifetime. -/
def initFieldData (api : Level → ApiOutcome) (p : PopupState) :
    PopupState × CoordState × ℕ :=
  match (cruxLoad api p.url).1 with
  | .ok fd => (renderFieldDataState p fd, .reconciled, 1)
  | .error _ => ({ p with status := fieldUnavailableStatus }, .fieldUnavailable, 1)

/-- The user-visible degrade message of `initFieldData`'s catch handler, which
ignores which of the two client errors occurred. -/
def popupDegradeStatus : FieldError → String :=
  fun _ => fieldUnavailableStatus

/-- JavaScript truthiness of the `error` constructor argument: `if (error)` is
taken for any non-empty string. -/
def errTruthy : Option String → Bool
  | none => false
  | some s => !s.isEmpty

/-- The input object destructured by the Popup constructor. -/
structure ConstructorInput where
  samples : LocalSamples
  timestampRaw : ℕ
  url : Url
  preferPhoneField : Bool
  error : Option String
deriving DecidableEq, Repr

/-- The observable state built by the Popup constructor; `none`/`false` fields
mean the corresponding initialization never ran. -/
structure PopupBuild where
  status : Option String
  timestamp : Option ℕ
  metricsMap : Option MetricsMap
  url : Option Url
  fieldRequestIssued : Bool
deriving DecidableEq, Repr

/-- The Popup constructor from `popup.js`: when `error` is truthy it only sets
the status message and returns; otherwise it stores the timestamp, samples and
URL and runs `init()`, which sets the loading status, creates the five Metric
objects and issues the field-data request. -/
def popupConstruct (input : ConstructorInput) : PopupBuild :=
  if errTruthy input.error then
    { status := some ("Web Vitals are unavailable for this page.\n" ++ input.error.getD "")
      timestamp := none
      metricsMap := none
      url := none
      fieldRequestIssued := false }
  else
    { status := some "Loading field data…"
      timestamp := some input.timestampRaw
      metricsMap := some (initMetricsMap input.samples)
      url := some input.url
      fieldRequestIssued := true }

/-- The page-level CLS distribution from the spec scenario. -/
def egDistributionCLS : Distribution := ⟨62/100, 25/100, 13/100⟩

/-- A distribution with a negative fraction, out of range for attachment. -/
def egBadDistribution : Distribution := ⟨-1, 1, 1⟩

/-- A local-only CLS Metric rated needs-improvement. -/
def egMetricCLS : Metric :=
  { kind := .cls, localValue := 19/100, localRating := .needsImprovement,
    distribution := none }

/-- The same CLS Metric after the spec-scenario distribution is attached. -/
def egMetricCLSAttached : Metric := { egMetricCLS with distribution := some egDistributionCLS }

/-- A concrete set of local samples for one popup run. -/
def egSamples : LocalSamples :=
  { lcp := ⟨1800, .good⟩, cls := ⟨19/100, .needsImprovement⟩, inp := ⟨200, .good⟩,
    fcp := ⟨1000, .good⟩, ttfb := ⟨500, .good⟩ }

/-- The metric map created from the concrete samples. -/
def egMetricsMap : MetricsMap := initMetricsMap egSamples

/-- A concrete page URL with a non-empty path. -/
def egPageUrl : Url := ⟨"https", "example.com", "/products/1"⟩

/-- A concrete popup state after local initialization. -/
def egPopupState : PopupState :=
  { status := "Loading field data…", pageDisplay := egPageUrl,
    metrics := egMetricsMap, url := egPageUrl }

/-- A concrete origin-level API record. -/
def egOriginRecord : ApiRecord :=
  { metrics := [("cls", egDistributionCLS)], normalizedUrl := none }

/-- A field-data API with no page-level record but an origin-level record. -/
def egApiOriginOnly : Level → ApiOutcome
  | .page => .notFound
  | .origin => .found egOriginRecord

/-- A field-data API with neither a page-level nor an origin-level record. -/
def egApiNone : Level → ApiOutcome := fun _ => .notFound

/-- A field-data API whose every request fails in transport (e.g. timeout). -/
def egApiTimeout : Level → ApiOutcome := fun _ => .transportError

/-- A constructor input carrying a non-empty error. -/
def egErrorInput : ConstructorInput :=
  { samples := egSamples, timestampRaw := 0, url := egPageUrl,
    preferPhoneField := false, error := some "Chrome internal page" }

/-- Valid distributions are exactly those with nonnegative fractions summing
to at most 1 + ε. -/
theorem validDistribution_iff (d : Distribution) :
    validDistribution d = true ↔
      0 ≤ d.good ∧ 0 ≤ d.needsImprovement ∧ 0 ≤ d.poor ∧
        d.good + d.needsImprovement + d.poor ≤ 1 + epsilon := by
  simp [validDistribution, and_assoc]

/-- Claim C1: for every metric kind (thresholds with goodBound ≤ poorBound)
and every finite non-negative value v, the rating is good exactly when v is
strictly below the good bound, needs-improvement exactly when v is at or
above the good bound and strictly below the poor bound, and poor exactly when
v is at or above the poor bound; in particular a local LCP of 1800 ms under
thresholds good < 2500, poor ≥ 4000 is rated good. -/
theorem rating_classification (t : Thresholds) (v : ℚ)
    (_hv : 0 ≤ v) (ht : t.goodBound ≤ t.poorBound) :
    (rating t v = .good ↔ v < t.goodBound) ∧
    (rating t v = .needsImprovement ↔ t.goodBound ≤ v ∧ v < t.poorBound) ∧
    (rating t v = .poor ↔ t.poorBound ≤ v) ∧
    rating lcpThresholds 1800 = .good := by
  refine ⟨?_, ?_, ?_, by decide⟩ <;>
    (unfold rating; split_ifs with h1 h2) <;> simp_all <;> linarith

/-- Witness for C1 at LCP thresholds and v = 1800. -/
theorem rating_classification_witness :
    rating lcpThresholds 1800 = Rating.good :=
  (rating_classification lcpThresholds 1800 (by norm_num)
    (by norm_num [lcpThresholds])).2.2.2

/-- Claim C8: for every metric kind's positive scale maximum,
`relativePosition` is monotonically non-decreasing in the value, never leaves
[0,1], and equals exactly 1 for every value at or beyond the scale maximum. -/
theorem relativePosition_props (scaleMax : ℚ) (h : 0 < scaleMax) :
    (∀ v w : ℚ, v ≤ w →
      relativePosition scaleMax v ≤ relativePosition scaleMax w) ∧
    (∀ v : ℚ, 0 ≤ relativePosition scaleMax v ∧ relativePosition scaleMax v ≤ 1) ∧
    (∀ v : ℚ, scaleMax ≤ v → relativePosition scaleMax v = 1) := by
  refine ⟨?_, ?_, ?_⟩
  · intro v w hvw
    unfold relativePosition
    gcongr
  · intro v
    unfold relativePosition
    exact ⟨le_max_left 0 _, max_le (by norm_num) (min_le_left _ _)⟩
  · intro v hval
    unfold relativePosition
    rw [min_eq_left (by rw [le_div_iff₀ h]; linarith), max_eq_right zero_le_one]

/-- Witness for C8 at a concrete scale maximum and an overflowing value. -/
theorem relativePosition_props_witness :
    relativePosition 6500 7000 = 1 :=
  (relativePosition_props 6500 (by norm_num)).2.2 7000 (by norm_num)

/-- Claim C4: attaching a Distribution whose fractions are not individually
nonnegative with sum at most 1 + ε is rejected with `InvalidDistribution` and
leaves the Metric unchanged on local data; any Distribution that is attached
satisfies the nonnegativity and sum bounds. -/
theorem distribution_attachment (m : Metric) (d : Distribution) :
    (validDistribution d = false →
      attachDistribution m d = .error .invalidDistribution ∧ reconcile m d = m) ∧
    (∀ m', attachDistribution m d = .ok m' →
      m'.kind = m.kind ∧ m'.localValue = m.localValue ∧
      m'.localRating = m.localRating ∧ m'.distribution = some d ∧
      0 ≤ d.good ∧ 0 ≤ d.needsImprovement ∧ 0 ≤ d.poor ∧
      d.good + d.needsImprovement + d.poor ≤ 1 + epsilon) := by
  constructor
  · intro hval
    have h1 : attachDistribution m d = .error .invalidDistribution := by
      unfold attachDistribution
      rw [if_neg]
      simp [hval]
    refine ⟨h1, ?_⟩
    unfold reconcile
    rw [h1]
  · intro m' hok
    unfold attachDistribution at hok
    by_cases hval : validDistribution d = true
    · rw [if_pos hval] at hok
      obtain ⟨rfl⟩ := hok
      have hprops := (validDistribution_iff d).mp hval
      exact ⟨rfl, rfl, rfl, rfl, hprops.1, hprops.2.1, hprops.2.2.1, hprops.2.2.2⟩
    · rw [if_neg (by simpa using hval)] at hok
      exact absurd hok (by simp)

/-- Witness for C4 at a distribution summing to 1.2. -/
theorem distribution_attachment_witness :
    attachDistribution egMetricCLS egBadDistribution
        = .error .invalidDistribution ∧
      reconcile egMetricCLS egBadDistribution = egMetricCLS :=
  (distribution_attachment egMetricCLS egBadDistribution).1 (by decide)

/-- Claim C5: with an attached Distribution, `getDensity` returns the
requested bucket's fraction formatted as a percentage string at the given
precision, and returns the sentinel "Unavailable" when no Distribution is
attached; for the attached CLS distribution {good 0.62, needs-improvement
0.25, poor 0.13} and local rating needs-improvement, the density at the
assessment index with precision 0 is "25%". -/
theorem density_formatting (m : Metric) (i : Fin 3) (precision : ℕ) :
    (m.distribution = none → getDensity m i precision = "Unavailable") ∧
    (∀ d, m.distribution = some d →
      getDensity m i precision = formatPercent (bucketFraction d i) precision) ∧
    getDensity egMetricCLSAttached (getAssessmentIndex .needsImprovement) 0 = "25%" := by
  refine ⟨?_, ?_, ?_⟩
  · intro hnone
    unfold getDensity
    rw [hnone]
  · intro d hsome
    unfold getDensity
    rw [hsome]
  · have hs : percentScaled ((25 : ℚ)/100) 0 = 25 := by
      unfold percentScaled
      norm_num
    show formatPercent ((25 : ℚ)/100) 0 = "25%"
    unfold formatPercent
    rw [if_pos rfl, hs]
    rfl

/-- Witness for C5: an unattached Metric yields the sentinel. -/
theorem density_formatting_witness :
    getDensity egMetricCLS 0 2 = "Unavailable" :=
  (density_formatting egMetricCLS 0 2).1 rfl

/-- Claim C2: when the API reports a documented not-found for the page-level
request, the client issues a second origin-level request; when that request
returns data, the result has scope origin-fallback and its effective URL is
the origin (scheme + host only), which differs from the page URL whenever the
page URL has a non-empty path. -/
theorem origin_fallback_result (api : Level → ApiOutcome) (u : Url) (r : ApiRecord)
    (hp : api .page = .notFound) (ho : api .origin = .found r) :
    (cruxLoad api u).2 = [.page, .origin] ∧
    ∃ res, (cruxLoad api u).1 = .ok res ∧ res.scope = .originFallback ∧
      res.effectiveUrl = originOf u ∧ res.metrics = r.metrics ∧
      (u.path ≠ "" → res.effectiveUrl ≠ u) := by
  have hload : cruxLoad api u =
      (.ok { scope := .originFallback, effectiveUrl := originOf u,
             metrics := r.metrics }, [.page, .origin]) := by
    unfold cruxLoad
    rw [hp, ho]
  rw [hload]
  refine ⟨rfl, _, rfl, rfl, rfl, rfl, ?_⟩
  intro hpath heq
  have heq' : originOf u = u := heq
  apply hpath
  have hpaths : (originOf u).path = u.path := by rw [heq']
  simpa [originOf] using hpaths.symm

/-- Witness for C2: the concrete origin-only API issues both requests. -/
theorem origin_fallback_result_witness :
    (cruxLoad egApiOriginOnly egPageUrl).2 = [.page, .origin] :=
  (origin_fallback_result egApiOriginOnly egPageUrl egOriginRecord rfl rfl).1

/-- Claim C6: when neither a page- nor an origin-level record exists the
client surfaces `FieldDataUnavailable`, a value distinct from
`FieldDataTransportError` at the client boundary, even though the popup's
degrade message is the same for both error kinds. -/
theorem unavailable_vs_transport (api : Level → ApiOutcome) (u : Url)
    (hp : api .page = .notFound) (ho : api .origin = .notFound) :
    (cruxLoad api u).1 = .error .fieldDataUnavailable ∧
    FieldError.fieldDataUnavailable ≠ FieldError.fieldDataTransportError ∧
    popupDegradeStatus .fieldDataUnavailable
      = popupDegradeStatus .fieldDataTransportError := by
  refine ⟨?_, by decide, rfl⟩
  unfold cruxLoad
  rw [hp, ho]

/-- Witness for C6 at the concrete record-free API. -/
theorem unavailable_vs_transport_witness :
    (cruxLoad egApiNone egPageUrl).1 = .error .fieldDataUnavailable :=
  (unavailable_vs_transport egApiNone egPageUrl rfl rfl).1

/-- Claim C3: whenever the field-data fetch fails with either client error
(including a timeout, which the client reports as a transport error), the
coordinator ends in the FieldUnavailable state with the degrade status, the
metric map — every Metric with its local value and rating — is unchanged, and
exactly one field-data load is issued in the popup lifetime (no retry). -/
theorem field_failure_degrades (api : Level → ApiOutcome) (p : PopupState)
    (e : FieldError) (h : (cruxLoad api p.url).1 = .error e) :
    (initFieldData api p).2.1 = .fieldUnavailable ∧
    (initFieldData api p).1.metrics = p.metrics ∧
    (initFieldData api p).1.status = fieldUnavailableStatus ∧
    (initFieldData api p).2.2 = 1 := by
  unfold initFieldData
  rw [h]
  exact ⟨rfl, rfl, rfl, rfl⟩

/-- Witness for C3 at a concrete always-timing-out API. -/
theorem field_failure_degrades_witness :
    (initFieldData egApiTimeout egPopupState).2.1 = .fieldUnavailable ∧
    (initFieldData egApiTimeout egPopupState).1.metrics = egPopupState.metrics :=
  let h := field_failure_degrades egApiTimeout egPopupState .fieldDataTransportError rfl
  ⟨h.1, h.2.1⟩

/-- Claim C7: a payload entry whose metric identifier is not one of the
popup's supported kinds is silently dropped by the per-metric loop of
`renderFieldData`: removing it from the payload changes nothing, so it is
attached to no Metric, raises no error, and leaves the processing of the
supported kinds unaffected. -/
theorem unsupported_kinds_dropped (mm : MetricsMap)
    (pre post : List (String × Distribution)) (id : String) (d : Distribution)
    (h : id ∉ supportedIds) :
    processFieldMetrics mm (pre ++ (id, d) :: post)
      = processFieldMetrics mm (pre ++ post) := by
  have hne : id ≠ "lcp" ∧ id ≠ "cls" ∧ id ≠ "inp" ∧ id ≠ "fcp" ∧ id ≠ "ttfb" := by
    refine ⟨?_, ?_, ?_, ?_, ?_⟩ <;> rintro rfl <;> exact h (by simp [supportedIds])
  have hstep : ∀ mm' : MetricsMap, applyFieldEntry mm' (id, d) = mm' := by
    intro mm'
    have hlook : lookupMetric mm' id = none := by
      simp [lookupMetric, hne.1, hne.2.1, hne.2.2.1, hne.2.2.2.1, hne.2.2.2.2]
    unfold applyFieldEntry
    rw [hlook]
  unfold processFieldMetrics
  induction pre generalizing mm with
  | nil => rw [List.nil_append, List.nil_append, List.foldl_cons, hstep]
  | cons head tail ih =>
      rw [List.cons_append, List.cons_append, List.foldl_cons, List.foldl_cons]
      exact ih _

/-- Witness for C7: a payload carrying an unknown "fid" entry between two
supported entries processes identically to the payload without it. -/
theorem unsupported_kinds_dropped_witness :
    processFieldMetrics egMetricsMap
        ([("lcp", egDistributionCLS)] ++ ("fid", egDistributionCLS) ::
          [("cls", egDistributionCLS)])
      = processFieldMetrics egMetricsMap
          ([("lcp", egDistributionCLS)] ++ [("cls", egDistributionCLS)]) :=
  unsupported_kinds_dropped egMetricsMap [("lcp", egDistributionCLS)]
    [("cls", egDistributionCLS)] "fid" egDistributionCLS (by decide)

/-- Claim C9 (code evaluation at the failing input): contrary to the claim
that no INP Metric is ever created, rated, or displayed, for every popup run
`initMetrics` creates an INP Metric carrying the local INP sample and its
rating, and `renderMetrics` passes it through the same render path as the
active kinds. -/
theorem inp_created_and_rendered (s : LocalSamples) :
    (initMetricsMap s).inp = mkMetric .inp s.inp ∧
    MetricId.inp ∈ (renderedMetrics (initMetricsMap s)).map Metric.kind := by
  refine ⟨rfl, ?_⟩
  simp [renderedMetrics, initMetricsMap, mkMetric]

/-- Claim C10: when the construction input carries a (JS-truthy, hence
non-empty) error, the Popup constructor only sets the status message and
returns: no Metric object is created, no field-data request is issued, and
neither the timestamp nor the url is initialized. -/
theorem error_input_early_return (input : ConstructorInput)
    (h : errTruthy input.error = true) :
    (popupConstruct input).status
        = some ("Web Vitals are unavailable for this page.\n" ++ input.error.getD "") ∧
    (popupConstruct input).metricsMap = none ∧
    (popupConstruct input).fieldRequestIssued = false ∧
    (popupConstruct input).timestamp = none ∧
    (popupConstruct input).url = none := by
  unfold popupConstruct
  rw [if_pos h]
  exact ⟨rfl, rfl, rfl, rfl, rfl⟩

/-- Witness for C10 at a concrete errored construction input. -/
theorem error_input_early_return_witness :
    (popupConstruct egErrorInput).metricsMap = none ∧
    (popupConstruct egErrorInput).fieldRequestIssued = false :=
  let h := error_input_early_return egErrorInput rfl
  ⟨h.2.1, h.2.2.1⟩

end WebVitals
